import Mathlib

/-!
Verification of the twitter-clone data-access layer (`src/db/index.js`).

The source is a set of read-only database adapters over a PostgreSQL store:
`getAllUsers`, `getUserById`, `getTweetsByUserId`, `getHashtagsByTweetId`,
`getFollowersByUserId`, `getLikesByTweetId`, plus a diagnostic aggregator
`testDB`.  Each adapter issues one parameterized SELECT through a shared
`pg` client, wrapped in a try/catch that rethrows the caught error.

The embedding has three layers:
 * a relational store state `DB` (lists of rows for the five relations),
   together with the semantics of the six fixed SELECT statements, translated
   clause-by-clause from the SQL text in the source;
 * an abstract client `Client`: a responder mapping each of the six
   parameterized queries to either a row set or a thrown error, modelling
   `client.query` together with the possibility of an underlying store
   failure;
 * the adapters themselves, returning both the list of queries issued
   (their trace) and the result, with JavaScript exceptions modelled by
   `Except JSError`.
-/

namespace TwitterClone

/-- A row of the `users` relation: `id`, `username`. -/
structure User where
  id : Nat
  username : String
deriving DecidableEq

/-- A row of the `tweets` relation: `id`, `author` (a user id), and the
tweet body (further columns are never inspected by the adapters). -/
structure Tweet where
  id : Nat
  author : Nat
  content : String
deriving DecidableEq

/-- A row of the `hashtags` relation: `id`, `tag`. -/
structure Hashtag where
  id : Nat
  tag : String
deriving DecidableEq

/-- A row of the `tweet_hashtags` join relation. -/
structure TweetHashtag where
  tweet_id : Nat
  hashtag_id : Nat
deriving DecidableEq

/-- A row of the `user_followers` join relation. -/
structure UserFollower where
  primary_id : Nat
  follower_id : Nat
deriving DecidableEq

/-- A row of the `likes` relation. -/
structure Like where
  tweet_id : Nat
  user_id : Nat
deriving DecidableEq

/-- The state of the relational store: the five relations the six fixed
queries touch. -/
structure DB where
  users : List User
  tweets : List Tweet
  hashtags : List Hashtag
  tweet_hashtags : List TweetHashtag
  user_followers : List UserFollower
  likes : List Like
deriving DecidableEq

/-! ### Semantics of the six SELECT statements

Each definition is the relational-algebra reading of the SQL text in the
source: inner joins are the filtered cartesian product (nested iteration in
FROM-clause order), WHERE is a further filter, and the SELECT clause is the
final projection.  No ORDER BY appears in the source, so row order is the
nested-iteration order. -/

/-- `SELECT * FROM users;` -/
def selectAllUsers (db : DB) : List User :=
  db.users

/-- `SELECT * FROM users WHERE users.id=$1;` -/
def selectUserById (db : DB) (userId : Nat) : List User :=
  db.users.filter (fun u => u.id == userId)

/-- `SELECT * FROM tweets WHERE tweets.author=$1;` -/
def selectTweetsByAuthor (db : DB) (userId : Nat) : List Tweet :=
  db.tweets.filter (fun t => t.author == userId)

/-- `SELECT hashtags.id, hashtags.tag FROM hashtags
     JOIN tweet_hashtags ON hashtags.id=tweet_hashtags.hashtag_id
     JOIN tweets ON tweets.id=tweet_hashtags.tweet_id
     WHERE tweets.id=$1;` -/
def selectHashtagsByTweetId (db : DB) (tweetId : Nat) : List Hashtag :=
  db.hashtags.flatMap fun h =>
    db.tweet_hashtags.flatMap fun th =>
      db.tweets.flatMap fun t =>
        if h.id == th.hashtag_id && t.id == th.tweet_id && t.id == tweetId
        then [{ id := h.id, tag := h.tag }]
        else []

/-- `SELECT followers.id, followers.username FROM users
     JOIN user_followers ON users.id=user_followers.primary_id
     JOIN users AS followers ON followers.id=user_followers.follower_id
     WHERE users.id=$1;`
The projected columns are a user id and username, so a result row has the
shape of a `User` record. -/
def selectFollowersByUserId (db : DB) (userId : Nat) : List User :=
  db.users.flatMap fun u =>
    db.user_followers.flatMap fun uf =>
      db.users.flatMap fun f =>
        if u.id == uf.primary_id && f.id == uf.follower_id && u.id == userId
        then [{ id := f.id, username := f.username }]
        else []

/-- `SELECT COUNT(*) FROM likes WHERE likes.tweet_id=$1;`
An ungrouped aggregate always produces exactly one row, whose single field is
the number of rows satisfying the WHERE clause. -/
def selectCountLikes (db : DB) (tweetId : Nat) : List Nat :=
  [(db.likes.filter (fun l => l.tweet_id == tweetId)).length]

/-! ### The client and the exception model -/

/-- The six parameterized statements the layer issues, with their bound
parameter (`$1`). -/
inductive SQLQuery where
  | allUsers : SQLQuery
  | userById : Nat → SQLQuery
  | tweetsByAuthor : Nat → SQLQuery
  | hashtagsByTweetId : Nat → SQLQuery
  | followersByUserId : Nat → SQLQuery
  | countLikes : Nat → SQLQuery
deriving DecidableEq

/-- The row type each query produces. -/
def QueryResult : SQLQuery → Type
  | .allUsers => List User
  | .userById _ => List User
  | .tweetsByAuthor _ => List Tweet
  | .hashtagsByTweetId _ => List Hashtag
  | .followersByUserId _ => List User
  | .countLikes _ => List Nat

/-- A JavaScript exception as observed by this layer: either an error thrown
by the `pg` client (connectivity loss, malformed query, ...), carried
verbatim, or the `TypeError` raised by reading `.id` of `undefined` in
`testDB` when `userTweets` is empty. -/
inductive JSError where
  | store : String → JSError
  | undefinedAccess : JSError
deriving DecidableEq

/-- The `pg` client, abstracted as a responder: for each query it either
returns the row set or throws an error.  `client.query` is awaited, so each
call yields exactly one of the two. -/
def Client : Type :=
  (q : SQLQuery) → Except JSError (QueryResult q)

/-- The client backed by an actual store state `db`: every query succeeds
and returns the rows given by the SELECT semantics above. -/
def goodClient (db : DB) : Client :=
  fun q =>
    .ok (match q with
      | .allUsers => selectAllUsers db
      | .userById i => selectUserById db i
      | .tweetsByAuthor i => selectTweetsByAuthor db i
      | .hashtagsByTweetId i => selectHashtagsByTweetId db i
      | .followersByUserId i => selectFollowersByUserId db i
      | .countLikes i => selectCountLikes db i)

/-- Executing one statement against the store: the six statements are all
SELECTs, whose semantics reads the state and leaves it unchanged, producing
the rows of `goodClient`'s success value. -/
def execQuery (db : DB) (q : SQLQuery) : DB × QueryResult q :=
  (db,
    match q with
    | .allUsers => selectAllUsers db
    | .userById i => selectUserById db i
    | .tweetsByAuthor i => selectTweetsByAuthor db i
    | .hashtagsByTweetId i => selectHashtagsByTweetId db i
    | .followersByUserId i => selectFollowersByUserId db i
    | .countLikes i => selectCountLikes db i)

/-- The store state after a sequence of statements has been executed. -/
def runTrace (db : DB) (qs : List SQLQuery) : DB :=
  qs.foldl (fun d q => (execQuery d q).1) db

/-! ### The adapters

Each adapter returns the list of queries it issued (its trace) together with
its result.  The try/catch in the source only rethrows, which is the
`.error e => .error e` branch. -/

/-- `getAllUsers()`: one query, returns `rows` unchanged; rethrows. -/
def getAllUsers (c : Client) : List SQLQuery × Except JSError (List User) :=
  ([.allUsers],
    match c .allUsers with
    | .ok rows => .ok rows
    | .error e => .error e)

/-- `getUserById(userId)`: one query; `const { rows: [user] } = ...` binds
the first row (or `undefined` when there is none) and returns it; rethrows. -/
def getUserById (c : Client) (userId : Nat) :
    List SQLQuery × Except JSError (Option User) :=
  ([.userById userId],
    match c (.userById userId) with
    | .ok rows => .ok rows.head?
    | .error e => .error e)

/-- `getTweetsByUserId(userId)`: one query, returns `rows`; rethrows. -/
def getTweetsByUserId (c : Client) (userId : Nat) :
    List SQLQuery × Except JSError (List Tweet) :=
  ([.tweetsByAuthor userId],
    match c (.tweetsByAuthor userId) with
    | .ok rows => .ok rows
    | .error e => .error e)

/-- `getHashtagsByTweetId(tweetId)`: one query, returns `rows`; rethrows. -/
def getHashtagsByTweetId (c : Client) (tweetId : Nat) :
    List SQLQuery × Except JSError (List Hashtag) :=
  ([.hashtagsByTweetId tweetId],
    match c (.hashtagsByTweetId tweetId) with
    | .ok rows => .ok rows
    | .error e => .error e)

/-- `getFollowersByUserId(userId)`: one query, returns `rows`; rethrows. -/
def getFollowersByUserId (c : Client) (userId : Nat) :
    List SQLQuery × Except JSError (List User) :=
  ([.followersByUserId userId],
    match c (.followersByUserId userId) with
    | .ok rows => .ok rows
    | .error e => .error e)

/-- `getLikesByTweetId(tweetId)`: one query, returns `rows` (the one-row
aggregate result); rethrows. -/
def getLikesByTweetId (c : Client) (tweetId : Nat) :
    List SQLQuery × Except JSError (List Nat) :=
  ([.countLikes tweetId],
    match c (.countLikes tweetId) with
    | .ok rows => .ok rows
    | .error e => .error e)

/-- The composite record `testDB` returns on success. -/
structure TestDBResult where
  users : List User
  user : Option User
  userTweets : List Tweet
  userTweetHashtags : List Hashtag
  firstTweetLikes : List Nat
  userFollowers : List User
deriving DecidableEq

/-- `testDB(userId)`: invokes the six adapters strictly in sequence, reading
`userTweets[0].id` in between; an exception at any step aborts the sequence
and is rethrown.  When `userTweets` is empty, `userTweets[0]` is `undefined`
and reading `.id` throws a `TypeError` (`JSError.undefinedAccess`).  The
`console.log` calls have no effect on the result and are omitted. -/
def testDB (c : Client) (userId : Nat) :
    List SQLQuery × Except JSError TestDBResult :=
  let (t1, r1) := getAllUsers c
  match r1 with
  | .error e => (t1, .error e)
  | .ok users =>
    let (t2, r2) := getUserById c userId
    match r2 with
    | .error e => (t1 ++ t2, .error e)
    | .ok user =>
      let (t3, r3) := getTweetsByUserId c userId
      match r3 with
      | .error e => (t1 ++ t2 ++ t3, .error e)
      | .ok userTweets =>
        match userTweets with
        | [] => (t1 ++ t2 ++ t3, .error .undefinedAccess)
        | firstTweet :: _ =>
          let firstUserTweetId := firstTweet.id
          let (t4, r4) := getHashtagsByTweetId c firstUserTweetId
          match r4 with
          | .error e => (t1 ++ t2 ++ t3 ++ t4, .error e)
          | .ok userTweetHashtags =>
            let (t5, r5) := getLikesByTweetId c firstUserTweetId
            match r5 with
            | .error e => (t1 ++ t2 ++ t3 ++ t4 ++ t5, .error e)
            | .ok firstTweetLikes =>
              let (t6, r6) := getFollowersByUserId c userId
              match r6 with
              | .error e => (t1 ++ t2 ++ t3 ++ t4 ++ t5 ++ t6, .error e)
              | .ok userFollowers =>
                (t1 ++ t2 ++ t3 ++ t4 ++ t5 ++ t6,
                  .ok { users := users, user := user, userTweets := userTweets,
                        userTweetHashtags := userTweetHashtags,
                        firstTweetLikes := firstTweetLikes,
                        userFollowers := userFollowers })


/-! ### Helper lemmas -/

/-- Running `testDB` against a live store whose target user has no tweets:
the first three queries succeed and the read of `userTweets[0].id` throws. -/
theorem testDB_goodClient_nil (db : DB) (userId : Nat)
    (h : selectTweetsByAuthor db userId = []) :
    testDB (goodClient db) userId =
      ([.allUsers, .userById userId, .tweetsByAuthor userId],
        .error .undefinedAccess) := by
  simp only [testDB, getAllUsers, getUserById, getTweetsByUserId, goodClient, h]
  rfl

/-- Running `testDB` against a live store whose target user has at least one
tweet: all six queries succeed and the first tweet's id drives the hashtag
and like lookups. -/
theorem testDB_goodClient_cons (db : DB) (userId : Nat) (t : Tweet) (ts : List Tweet)
    (h : selectTweetsByAuthor db userId = t :: ts) :
    testDB (goodClient db) userId =
      ([.allUsers, .userById userId, .tweetsByAuthor userId,
        .hashtagsByTweetId t.id, .countLikes t.id, .followersByUserId userId],
        .ok { users := selectAllUsers db,
              user := (selectUserById db userId).head?,
              userTweets := t :: ts,
              userTweetHashtags := selectHashtagsByTweetId db t.id,
              firstTweetLikes := selectCountLikes db t.id,
              userFollowers := selectFollowersByUserId db userId }) := by
  simp only [testDB, getAllUsers, getUserById, getTweetsByUserId, getHashtagsByTweetId,
    getLikesByTweetId, getFollowersByUserId, goodClient, h]
  rfl

/-! ### Concrete store states and clients used to instantiate the theorems -/

/-- A seeded store: one user `albert` with one tweet carrying hashtag `sql`,
no likes, no followers. -/
def dbSeed : DB :=
  { users := [⟨1, "albert"⟩],
    tweets := [⟨1, 1, "hello world"⟩],
    hashtags := [⟨1, "sql"⟩],
    tweet_hashtags := [⟨1, 1⟩],
    user_followers := [],
    likes := [] }

/-- A store whose only user has written no tweets. -/
def dbNoTweets : DB :=
  { users := [⟨2, "niels"⟩],
    tweets := [],
    hashtags := [],
    tweet_hashtags := [],
    user_followers := [],
    likes := [] }

/-! ### Claims -/

/-- C1: if the tweets-by-author lookup for the target user returns an empty
sequence, `testDB` fails with the undefined-access error raised by reading
`userTweets[0].id`; conversely, when the target user has at least one tweet,
that access succeeds and `testDB` returns a composite result. -/
theorem testDB_first_tweet_access (db : DB) (userId : Nat) :
    (selectTweetsByAuthor db userId = [] →
      (testDB (goodClient db) userId).2 = .error .undefinedAccess) ∧
    (selectTweetsByAuthor db userId ≠ [] →
      ∃ r : TestDBResult, (testDB (goodClient db) userId).2 = .ok r) := by
  constructor
  · intro h
    rw [testDB_goodClient_nil db userId h]
  · intro h
    match hsel : selectTweetsByAuthor db userId with
    | [] => exact absurd hsel h
    | t :: ts =>
      refine ⟨{ users := selectAllUsers db,
                user := (selectUserById db userId).head?,
                userTweets := t :: ts,
                userTweetHashtags := selectHashtagsByTweetId db t.id,
                firstTweetLikes := selectCountLikes db t.id,
                userFollowers := selectFollowersByUserId db userId }, ?_⟩
      rw [testDB_goodClient_cons db userId t ts hsel]

/-- C1 witness: on the seeded store the empty-tweets branch (user 2 of
`dbNoTweets`) raises the undefined-access error, and the nonempty branch
(user 1 of `dbSeed`) succeeds. -/
theorem testDB_first_tweet_access_witness :
    (testDB (goodClient dbNoTweets) 2).2 = .error .undefinedAccess ∧
    ∃ r : TestDBResult, (testDB (goodClient dbSeed) 1).2 = .ok r :=
  ⟨(testDB_first_tweet_access dbNoTweets 2).1 rfl,
   (testDB_first_tweet_access dbSeed 1).2 (by decide)⟩

/-- C6: when the target user has at least one tweet, `testDB` returns the
composite record of the six adapter outputs, the hashtag and like lookups
being driven by the identifier of the first tweet of the target user. -/
theorem testDB_composite_result (db : DB) (userId : Nat) (t : Tweet) (ts : List Tweet)
    (h : selectTweetsByAuthor db userId = t :: ts) :
    (testDB (goodClient db) userId).2 =
      .ok { users := selectAllUsers db,
            user := (selectUserById db userId).head?,
            userTweets := t :: ts,
            userTweetHashtags := selectHashtagsByTweetId db t.id,
            firstTweetLikes := selectCountLikes db t.id,
            userFollowers := selectFollowersByUserId db userId } := by
  rw [testDB_goodClient_cons db userId t ts h]

/-- C6 witness: the composite record on the seeded store. -/
theorem testDB_composite_result_witness :
    (testDB (goodClient dbSeed) 1).2 =
      .ok { users := [⟨1, "albert"⟩],
            user := some ⟨1, "albert"⟩,
            userTweets := [⟨1, 1, "hello world"⟩],
            userTweetHashtags := [⟨1, "sql"⟩],
            firstTweetLikes := [0],
            userFollowers := [] } :=
  testDB_composite_result dbSeed 1 ⟨1, 1, "hello world"⟩ [] rfl


/-- C2: every operation propagates the error raised by its underlying store
query to its caller unchanged — no retry, no translation, no fallback.  For
`testDB`, whichever of its six sequential queries is the first to fail, its
error is the one rethrown. -/
theorem adapters_propagate_store_error (c : Client) (userId tweetId : Nat) (e : JSError) :
    (c .allUsers = .error e → (getAllUsers c).2 = .error e) ∧
    (c (.userById userId) = .error e → (getUserById c userId).2 = .error e) ∧
    (c (.tweetsByAuthor userId) = .error e → (getTweetsByUserId c userId).2 = .error e) ∧
    (c (.hashtagsByTweetId tweetId) = .error e →
      (getHashtagsByTweetId c tweetId).2 = .error e) ∧
    (c (.followersByUserId userId) = .error e →
      (getFollowersByUserId c userId).2 = .error e) ∧
    (c (.countLikes tweetId) = .error e → (getLikesByTweetId c tweetId).2 = .error e) ∧
    (c .allUsers = .error e → (testDB c userId).2 = .error e) ∧
    (∀ us, c .allUsers = .ok us → c (.userById userId) = .error e →
      (testDB c userId).2 = .error e) ∧
    (∀ us u, c .allUsers = .ok us → c (.userById userId) = .ok u →
      c (.tweetsByAuthor userId) = .error e → (testDB c userId).2 = .error e) ∧
    (∀ us u t ts, c .allUsers = .ok us → c (.userById userId) = .ok u →
      c (.tweetsByAuthor userId) = .ok (t :: ts) →
      c (.hashtagsByTweetId t.id) = .error e → (testDB c userId).2 = .error e) ∧
    (∀ us u t ts hs, c .allUsers = .ok us → c (.userById userId) = .ok u →
      c (.tweetsByAuthor userId) = .ok (t :: ts) →
      c (.hashtagsByTweetId t.id) = .ok hs →
      c (.countLikes t.id) = .error e → (testDB c userId).2 = .error e) ∧
    (∀ us u t ts hs ls, c .allUsers = .ok us → c (.userById userId) = .ok u →
      c (.tweetsByAuthor userId) = .ok (t :: ts) →
      c (.hashtagsByTweetId t.id) = .ok hs →
      c (.countLikes t.id) = .ok ls →
      c (.followersByUserId userId) = .error e → (testDB c userId).2 = .error e) := by
  refine ⟨?_, ?_, ?_, ?_, ?_, ?_, ?_, ?_, ?_, ?_, ?_, ?_⟩
  · intro h; simp [getAllUsers, h]
  · intro h; simp [getUserById, h]
  · intro h; simp [getTweetsByUserId, h]
  · intro h; simp [getHashtagsByTweetId, h]
  · intro h; simp [getFollowersByUserId, h]
  · intro h; simp [getLikesByTweetId, h]
  · intro h
    simp [testDB, getAllUsers, h]
  · intro us h1 h2
    simp [testDB, getAllUsers, getUserById, h1, h2]
  · intro us u h1 h2 h3
    simp [testDB, getAllUsers, getUserById, getTweetsByUserId, h1, h2, h3]
  · intro us u t ts h1 h2 h3 h4
    simp [testDB, getAllUsers, getUserById, getTweetsByUserId, getHashtagsByTweetId,
      h1, h2, h3, h4]
  · intro us u t ts hs h1 h2 h3 h4 h5
    simp [testDB, getAllUsers, getUserById, getTweetsByUserId, getHashtagsByTweetId,
      getLikesByTweetId, h1, h2, h3, h4, h5]
  · intro us u t ts hs ls h1 h2 h3 h4 h5 h6
    simp [testDB, getAllUsers, getUserById, getTweetsByUserId, getHashtagsByTweetId,
      getLikesByTweetId, getFollowersByUserId, h1, h2, h3, h4, h5, h6]


/-- A store error, as thrown by the `pg` client. -/
def errConn : JSError := .store "connection terminated unexpectedly"

/-- A client whose every query fails. -/
def clientFailAll : Client := fun _ => .error errConn

/-- A client failing from the user-by-id query onward. -/
def clientFailFromUserById : Client := fun q =>
  match q with
  | .allUsers => .ok []
  | _ => .error errConn

/-- A client failing from the tweets-by-author query onward. -/
def clientFailFromTweets : Client := fun q =>
  match q with
  | .allUsers => .ok []
  | .userById _ => .ok []
  | _ => .error errConn

/-- A client failing from the hashtags query onward. -/
def clientFailFromHashtags : Client := fun q =>
  match q with
  | .allUsers => .ok []
  | .userById _ => .ok []
  | .tweetsByAuthor _ => .ok [⟨1, 1, "x"⟩]
  | _ => .error errConn

/-- A client failing from the count-likes query onward. -/
def clientFailFromLikes : Client := fun q =>
  match q with
  | .allUsers => .ok []
  | .userById _ => .ok []
  | .tweetsByAuthor _ => .ok [⟨1, 1, "x"⟩]
  | .hashtagsByTweetId _ => .ok []
  | _ => .error errConn

/-- A client failing only on the followers query. -/
def clientFailFromFollowers : Client := fun q =>
  match q with
  | .allUsers => .ok []
  | .userById _ => .ok []
  | .tweetsByAuthor _ => .ok [⟨1, 1, "x"⟩]
  | .hashtagsByTweetId _ => .ok []
  | .countLikes _ => .ok [0]
  | .followersByUserId _ => .error errConn

/-- C2 witness: each operation, run against a client whose underlying query
throws `errConn`, returns exactly `errConn`; `testDB` does so whichever of
its six queries is the first to fail. -/
theorem adapters_propagate_store_error_witness :
    (getAllUsers clientFailAll).2 = .error errConn ∧
    (getUserById clientFailAll 1).2 = .error errConn ∧
    (getTweetsByUserId clientFailAll 1).2 = .error errConn ∧
    (getHashtagsByTweetId clientFailAll 1).2 = .error errConn ∧
    (getFollowersByUserId clientFailAll 1).2 = .error errConn ∧
    (getLikesByTweetId clientFailAll 1).2 = .error errConn ∧
    (testDB clientFailAll 1).2 = .error errConn ∧
    (testDB clientFailFromUserById 1).2 = .error errConn ∧
    (testDB clientFailFromTweets 1).2 = .error errConn ∧
    (testDB clientFailFromHashtags 1).2 = .error errConn ∧
    (testDB clientFailFromLikes 1).2 = .error errConn ∧
    (testDB clientFailFromFollowers 1).2 = .error errConn := by
  obtain ⟨p1, p2, p3, p4, p5, p6, q1, -, -, -, -, -⟩ :=
    adapters_propagate_store_error clientFailAll 1 1 errConn
  obtain ⟨-, -, -, -, -, -, -, q2, -, -, -, -⟩ :=
    adapters_propagate_store_error clientFailFromUserById 1 1 errConn
  obtain ⟨-, -, -, -, -, -, -, -, q3, -, -, -⟩ :=
    adapters_propagate_store_error clientFailFromTweets 1 1 errConn
  obtain ⟨-, -, -, -, -, -, -, -, -, q4, -, -⟩ :=
    adapters_propagate_store_error clientFailFromHashtags 1 1 errConn
  obtain ⟨-, -, -, -, -, -, -, -, -, -, q5, -⟩ :=
    adapters_propagate_store_error clientFailFromLikes 1 1 errConn
  obtain ⟨-, -, -, -, -, -, -, -, -, -, -, q6⟩ :=
    adapters_propagate_store_error clientFailFromFollowers 1 1 errConn
  exact ⟨p1 rfl, p2 rfl, p3 rfl, p4 rfl, p5 rfl, p6 rfl, q1 rfl,
    q2 [] rfl rfl, q3 [] [] rfl rfl rfl,
    q4 [] [] ⟨1, 1, "x"⟩ [] rfl rfl rfl rfl,
    q5 [] [] ⟨1, 1, "x"⟩ [] [] rfl rfl rfl rfl rfl,
    q6 [] [] ⟨1, 1, "x"⟩ [] [] [0] rfl rfl rfl rfl rfl rfl⟩


/-- C3: for a user identifier present in the store, `getUserById` returns
exactly one user record, whose `id` field equals the input identifier. -/
theorem getUserById_present_id (db : DB) (userId : Nat)
    (h : ∃ u ∈ db.users, u.id = userId) :
    ∃ u : User, (getUserById (goodClient db) userId).2 = .ok (some u) ∧
      u.id = userId := by
  have key : (getUserById (goodClient db) userId).2 =
      .ok (selectUserById db userId).head? := rfl
  obtain ⟨u, hu, hid⟩ := h
  have hmem : u ∈ selectUserById db userId := by
    simp [selectUserById, List.mem_filter, hu, hid]
  match hsel : selectUserById db userId with
  | [] => rw [hsel] at hmem; exact absurd hmem (List.not_mem_nil u)
  | a :: l =>
    refine ⟨a, ?_, ?_⟩
    · rw [key, hsel]
      rfl
    · have ha : a ∈ selectUserById db userId := by
        rw [hsel]; exact List.mem_cons_self a l
      have := List.of_mem_filter ha
      simpa using this

/-- C3 witness: user 1 is present in the seeded store. -/
theorem getUserById_present_id_witness :
    ∃ u : User, (getUserById (goodClient dbSeed) 1).2 = .ok (some u) ∧
      u.id = 1 :=
  getUserById_present_id dbSeed 1 ⟨⟨1, "albert"⟩, by decide, rfl⟩

/-- C4: for a user identifier absent from the store, `getUserById` returns an
empty result (`undefined`, no user record) and no error. -/
theorem getUserById_absent_id (db : DB) (userId : Nat)
    (h : ∀ u ∈ db.users, u.id ≠ userId) :
    (getUserById (goodClient db) userId).2 = .ok none := by
  have key : (getUserById (goodClient db) userId).2 =
      .ok (selectUserById db userId).head? := rfl
  have hsel : selectUserById db userId = [] := by
    refine List.filter_eq_nil_iff.mpr ?_
    intro u hu
    simp [h u hu]
  rw [key, hsel]
  rfl

/-- C4 witness: user 7 is absent from the seeded store. -/
theorem getUserById_absent_id_witness :
    (getUserById (goodClient dbSeed) 7).2 = .ok none :=
  getUserById_absent_id dbSeed 7 (by decide)

/-- C5: for a tweet with zero rows in the likes relation, `getLikesByTweetId`
returns a one-row result whose single field holds the count 0 — not an empty
result and not an error. -/
theorem getLikesByTweetId_zero_likes (db : DB) (tweetId : Nat)
    (h : ∀ l ∈ db.likes, l.tweet_id ≠ tweetId) :
    (getLikesByTweetId (goodClient db) tweetId).2 = .ok [0] := by
  have key : (getLikesByTweetId (goodClient db) tweetId).2 =
      .ok (selectCountLikes db tweetId) := rfl
  have hsel : db.likes.filter (fun l => l.tweet_id == tweetId) = [] := by
    refine List.filter_eq_nil_iff.mpr ?_
    intro l hl
    simp [h l hl]
  rw [key]
  simp [selectCountLikes, hsel]

/-- C5 witness: tweet 1 has no likes in the seeded store. -/
theorem getLikesByTweetId_zero_likes_witness :
    (getLikesByTweetId (goodClient dbSeed) 1).2 = .ok [0] :=
  getLikesByTweetId_zero_likes dbSeed 1 (by decide)


/-- C8: the follower list of user `u` contains a record whose identifier is
`u` only if the `user_followers` relation holds an explicit self-follow row
for `u`. -/
theorem getFollowersByUserId_no_spurious_self (db : DB) (userId : Nat)
    (rows : List User)
    (h : (getFollowersByUserId (goodClient db) userId).2 = .ok rows)
    (r : User) (hr : r ∈ rows) (hid : r.id = userId) :
    ∃ uf ∈ db.user_followers, uf.primary_id = userId ∧ uf.follower_id = userId := by
  have key : (getFollowersByUserId (goodClient db) userId).2 =
      .ok (selectFollowersByUserId db userId) := rfl
  rw [key] at h
  obtain rfl : selectFollowersByUserId db userId = rows := by
    cases h
    rfl
  simp only [selectFollowersByUserId, List.mem_flatMap] at hr
  obtain ⟨u, hu, uf, huf, f, hf, hcond⟩ := hr
  by_cases hc : (u.id == uf.primary_id && f.id == uf.follower_id && u.id == userId) = true
  · rw [if_pos hc] at hcond
    simp only [Bool.and_eq_true, beq_iff_eq] at hc
    obtain ⟨⟨h1, h2⟩, h3⟩ := hc
    have hre : r = { id := f.id, username := f.username } := by
      simpa using hcond
    refine ⟨uf, huf, ?_, ?_⟩
    · rw [← h1, h3]
    · rw [← h2, ← hid, hre]
  · rw [if_neg hc] at hcond
    exact absurd hcond (List.not_mem_nil r)

/-- A store in which user 1 explicitly follows itself. -/
def dbSelfFollow : DB :=
  { users := [⟨1, "narcissus"⟩],
    tweets := [],
    hashtags := [],
    tweet_hashtags := [],
    user_followers := [⟨1, 1⟩],
    likes := [] }

/-- C8 witness: in `dbSelfFollow` the self-entry in the follower list comes
with the explicit self-follow row. -/
theorem getFollowersByUserId_no_spurious_self_witness :
    ∃ uf ∈ dbSelfFollow.user_followers, uf.primary_id = 1 ∧ uf.follower_id = 1 :=
  getFollowersByUserId_no_spurious_self dbSelfFollow 1 [⟨1, "narcissus"⟩]
    rfl ⟨1, "narcissus"⟩ (by decide) rfl

/-- C10: when the store returns more than one row for the user-by-id query,
`getUserById` returns only the first row; the remaining rows are discarded,
so two stores returning the same first row but different tails are
indistinguishable to the caller. -/
theorem getUserById_first_row_semantics (c c2 : Client) (userId : Nat)
    (r : User) (rest rest2 : List User) :
    (c (.userById userId) = .ok (r :: rest) →
      (getUserById c userId).2 = .ok (some r)) ∧
    (c (.userById userId) = .ok (r :: rest) →
      c2 (.userById userId) = .ok (r :: rest2) →
      (getUserById c userId).2 = (getUserById c2 userId).2) := by
  constructor
  · intro h
    simp [getUserById, h]
  · intro h h2
    simp [getUserById, h, h2]

/-- A store holding two distinct rows with user id 1. -/
def dbDupUsers : DB :=
  { users := [⟨1, "first"⟩, ⟨1, "second"⟩],
    tweets := [],
    hashtags := [],
    tweet_hashtags := [],
    user_followers := [],
    likes := [] }

/-- A store holding a single row with user id 1, agreeing with `dbDupUsers`
on the first matching row. -/
def dbOneUser : DB :=
  { users := [⟨1, "first"⟩],
    tweets := [],
    hashtags := [],
    tweet_hashtags := [],
    user_followers := [],
    likes := [] }

/-- C10 witness: on `dbDupUsers` the query yields two rows yet the adapter
returns only the first, and the result coincides with the one-row store. -/
theorem getUserById_first_row_semantics_witness :
    (getUserById (goodClient dbDupUsers) 1).2 = .ok (some ⟨1, "first"⟩) ∧
    (getUserById (goodClient dbDupUsers) 1).2 =
      (getUserById (goodClient dbOneUser) 1).2 :=
  ⟨(getUserById_first_row_semantics (goodClient dbDupUsers) (goodClient dbOneUser) 1
      ⟨1, "first"⟩ [⟨1, "second"⟩] []).1 rfl,
   (getUserById_first_row_semantics (goodClient dbDupUsers) (goodClient dbOneUser) 1
      ⟨1, "first"⟩ [⟨1, "second"⟩] []).2 rfl rfl⟩


/-- A list of at most one element has no duplicates. -/
theorem nodup_of_length_le_one {α : Type} {l : List α} (h : l.length ≤ 1) :
    l.Nodup := by
  match l with
  | [] => exact List.nodup_nil
  | [a] => simp
  | a :: b :: l => simp at h

/-- If mapping `f` over `l` yields no duplicates, then at most one element of
`l` can satisfy any predicate that pins down the value of `f`. -/
theorem countP_le_one_of_nodup_map {α β : Type} (f : α → β) (p : α → Bool)
    {l : List α} (hn : (l.map f).Nodup) (c : β)
    (hp : ∀ a, p a = true → f a = c) :
    l.countP p ≤ 1 := by
  induction l with
  | nil => simp
  | cons a l ih =>
    simp only [List.map_cons, List.nodup_cons] at hn
    obtain ⟨hna, hnl⟩ := hn
    rw [List.countP_cons]
    by_cases hpa : p a = true
    · have hz : l.countP p = 0 := by
        rw [List.countP_eq_zero]
        intro b hb hpb
        have heq : f b = f a := by rw [hp b hpb, hp a hpa]
        have hmem : f b ∈ l.map f := List.mem_map_of_mem f hb
        rw [heq] at hmem
        exact hna hmem
      simp [hz, hpa]
    · have hif : (if p a then 1 else 0) = 0 := by simp [hpa]
      rw [hif]
      have := ih hnl
      omega

/-- A pointwise bound on a sum: when each term is at most one and nonzero
terms satisfy `p`, the sum is bounded by the count of `p`. -/
theorem sum_map_le_countP {α : Type} (L : List α) (g : α → Nat) (p : α → Bool)
    (h1 : ∀ a ∈ L, g a ≤ 1) (h2 : ∀ a ∈ L, g a ≠ 0 → p a = true) :
    (L.map g).sum ≤ L.countP p := by
  induction L with
  | nil => simp
  | cons a L ih =>
    rw [List.map_cons, List.sum_cons, List.countP_cons]
    have ihh := ih (fun b hb => h1 b (List.mem_cons_of_mem a hb))
      (fun b hb => h2 b (List.mem_cons_of_mem a hb))
    by_cases hpa : p a = true
    · have hga := h1 a (List.mem_cons_self a L)
      have hif : (if p a then 1 else 0) = 1 := by simp [hpa]
      rw [hif]
      omega
    · have hz : g a = 0 := by
        by_contra hne
        exact hpa (h2 a (List.mem_cons_self a L) hne)
      have hif : (if p a then 1 else 0) = 0 := by simp [hpa]
      rw [hif, hz]
      omega

/-- Flat-mapping a guarded singleton counts the elements satisfying the
guard. -/
theorem length_flatMap_guard {α γ : Type} (l : List α) (p : α → Bool) (v : γ) :
    (l.flatMap fun a => if p a then [v] else []).length = l.countP p := by
  induction l with
  | nil => rfl
  | cons a l ih =>
    rw [List.flatMap_cons, List.length_append, ih, List.countP_cons]
    by_cases hpa : p a = true
    · have hif : (if p a then 1 else 0) = 1 := by simp [hpa]
      rw [hif]
      simp [hpa]
      omega
    · have hif : (if p a then 1 else 0) = 0 := by simp [hpa]
      rw [hif]
      simp [hpa]


/-- Every hashtag identifier in the join result for `h` is `h.id` itself. -/
theorem mem_hashtag_inner {db : DB} {tweetId : Nat} (h : Hashtag) (x : Nat)
    (hx : x ∈ (db.tweet_hashtags.flatMap fun th =>
      db.tweets.flatMap fun t =>
        if h.id == th.hashtag_id && t.id == th.tweet_id && t.id == tweetId
        then [{ id := h.id, tag := h.tag : Hashtag }]
        else []).map Hashtag.id) :
    x = h.id := by
  simp only [List.mem_map, List.mem_flatMap] at hx
  obtain ⟨a, ⟨th, hth, t, ht, ha⟩, rfl⟩ := hx
  by_cases hc : (h.id == th.hashtag_id && t.id == th.tweet_id && t.id == tweetId) = true
  · rw [if_pos hc] at ha
    have : a = { id := h.id, tag := h.tag : Hashtag } := by simpa using ha
    rw [this]
  · rw [if_neg hc] at ha
    exact absurd ha (List.not_mem_nil a)

/-- Under the relational integrity assumptions — tweet ids form a key and
the tweet-hashtag association rows are distinct — the hashtags-for-a-tweet
join contributes at most one row for any one hashtag `h`. -/
theorem hashtag_inner_length_le_one (db : DB) (tweetId : Nat) (h : Hashtag)
    (hT : (db.tweets.map Tweet.id).Nodup)
    (hTH : (db.tweet_hashtags.map fun th => (th.tweet_id, th.hashtag_id)).Nodup) :
    (db.tweet_hashtags.flatMap fun th =>
      db.tweets.flatMap fun t =>
        if h.id == th.hashtag_id && t.id == th.tweet_id && t.id == tweetId
        then [{ id := h.id, tag := h.tag : Hashtag }]
        else []).length ≤ 1 := by
  have hper : ∀ th ∈ db.tweet_hashtags,
      (db.tweets.flatMap fun t =>
        if h.id == th.hashtag_id && t.id == th.tweet_id && t.id == tweetId
        then [{ id := h.id, tag := h.tag : Hashtag }]
        else []).length ≤ 1 := by
    intro th _
    rw [length_flatMap_guard]
    exact countP_le_one_of_nodup_map Tweet.id _ hT tweetId (fun t ht => by
      simp only [Bool.and_eq_true, beq_iff_eq] at ht
      exact ht.2)
  have hzero : ∀ th ∈ db.tweet_hashtags,
      (db.tweets.flatMap fun t =>
        if h.id == th.hashtag_id && t.id == th.tweet_id && t.id == tweetId
        then [{ id := h.id, tag := h.tag : Hashtag }]
        else []).length ≠ 0 →
      decide ((th.tweet_id, th.hashtag_id) = (tweetId, h.id)) = true := by
    intro th _ hne
    rw [length_flatMap_guard] at hne
    have hpos : 0 < db.tweets.countP
        (fun t => h.id == th.hashtag_id && t.id == th.tweet_id && t.id == tweetId) := by
      omega
    rw [List.countP_pos_iff] at hpos
    obtain ⟨t, _, hc⟩ := hpos
    simp only [Bool.and_eq_true, beq_iff_eq] at hc
    obtain ⟨⟨h1, h2⟩, h3⟩ := hc
    refine decide_eq_true ?_
    rw [← h2, h3, h1]
  have hbound := sum_map_le_countP db.tweet_hashtags
    (fun th => (db.tweets.flatMap fun t =>
      if h.id == th.hashtag_id && t.id == th.tweet_id && t.id == tweetId
      then [{ id := h.id, tag := h.tag : Hashtag }]
      else []).length)
    (fun th => decide ((th.tweet_id, th.hashtag_id) = (tweetId, h.id)))
    hper hzero
  have hcnt := countP_le_one_of_nodup_map
    (fun th : TweetHashtag => (th.tweet_id, th.hashtag_id))
    (fun th : TweetHashtag => decide ((th.tweet_id, th.hashtag_id) = (tweetId, h.id)))
    hTH (tweetId, h.id) (fun a ha => of_decide_eq_true ha)
  rw [List.length_flatMap]
  exact le_trans hbound hcnt


/-- C7 (amended): under the relational integrity assumptions — hashtag ids
form a key, tweet ids form a key, and the tweet-hashtag association rows are
distinct — `getHashtagsByTweetId` returns the join rows, and they contain no
two entries with the same hashtag identifier. -/
theorem getHashtagsByTweetId_nodup_of_keys (db : DB) (tweetId : Nat)
    (hH : (db.hashtags.map Hashtag.id).Nodup)
    (hT : (db.tweets.map Tweet.id).Nodup)
    (hTH : (db.tweet_hashtags.map fun th => (th.tweet_id, th.hashtag_id)).Nodup) :
    (getHashtagsByTweetId (goodClient db) tweetId).2 =
      .ok (selectHashtagsByTweetId db tweetId) ∧
    ((selectHashtagsByTweetId db tweetId).map Hashtag.id).Nodup := by
  refine ⟨rfl, ?_⟩
  unfold selectHashtagsByTweetId
  rw [List.map_flatMap, List.nodup_flatMap]
  constructor
  · intro h _
    apply nodup_of_length_le_one
    rw [List.length_map]
    exact hashtag_inner_length_le_one db tweetId h hT hTH
  · have hpair : db.hashtags.Pairwise (fun a b => a.id ≠ b.id) := by
      rw [List.Nodup, List.pairwise_map] at hH
      exact hH
    refine hpair.imp ?_
    intro a b hne x hxa hxb
    exact hne ((mem_hashtag_inner a x hxa).symm.trans (mem_hashtag_inner b x hxb))


/-- A store in which the same tweet-hashtag association row occurs twice. -/
def dbDupAssoc : DB :=
  { users := [],
    tweets := [⟨1, 1, "x"⟩],
    hashtags := [⟨1, "sql"⟩],
    tweet_hashtags := [⟨1, 1⟩, ⟨1, 1⟩],
    user_followers := [],
    likes := [] }

/-- C7 counterexample: on a store state with a duplicated association row the
join fans out, and the returned sequence holds two entries with the same
hashtag identifier — refuting the claim over every store state. -/
theorem getHashtagsByTweetId_duplicate_counterexample :
    (getHashtagsByTweetId (goodClient dbDupAssoc) 1).2 =
      .ok [⟨1, "sql"⟩, ⟨1, "sql"⟩] ∧
    ¬ (((selectHashtagsByTweetId dbDupAssoc 1).map Hashtag.id).Nodup) :=
  ⟨rfl, by decide⟩

/-- C7 witness: the seeded store satisfies the key assumptions and its
hashtag list for tweet 1 is duplicate-free. -/
theorem getHashtagsByTweetId_nodup_of_keys_witness :
    (getHashtagsByTweetId (goodClient dbSeed) 1).2 =
      .ok (selectHashtagsByTweetId dbSeed 1) ∧
    ((selectHashtagsByTweetId dbSeed 1).map Hashtag.id).Nodup :=
  getHashtagsByTweetId_nodup_of_keys dbSeed 1 (by decide) (by decide) (by decide)

/-- C9 counterexample: on a store whose user-by-id query yields two rows the
adapter surfaces only the first record, and its output coincides with that of
a one-row store — the result set is not returned unmodified. -/
theorem adapters_rows_unmodified_counterexample :
    selectUserById dbDupUsers 1 = [⟨1, "first"⟩, ⟨1, "second"⟩] ∧
    (getUserById (goodClient dbDupUsers) 1).2 = .ok (some ⟨1, "first"⟩) ∧
    (getUserById (goodClient dbDupUsers) 1).2 =
      (getUserById (goodClient dbOneUser) 1).2 ∧
    selectUserById dbDupUsers 1 ≠ selectUserById dbOneUser 1 :=
  ⟨rfl, rfl, rfl, by decide⟩

/-- C9 (amended): every adapter issues exactly its one parameterized query,
executing that query leaves the store state unchanged, and the five
row-sequence operations return the rows produced by the store unmodified,
while `getUserById` returns the first produced row (or an empty result). -/
theorem adapters_single_query_frame (c : Client) (db : DB) (userId tweetId : Nat) :
    ((getAllUsers c).1 = [.allUsers] ∧
     (getUserById c userId).1 = [.userById userId] ∧
     (getTweetsByUserId c userId).1 = [.tweetsByAuthor userId] ∧
     (getHashtagsByTweetId c tweetId).1 = [.hashtagsByTweetId tweetId] ∧
     (getFollowersByUserId c userId).1 = [.followersByUserId userId] ∧
     (getLikesByTweetId c tweetId).1 = [.countLikes tweetId]) ∧
    (runTrace db (getAllUsers c).1 = db ∧
     runTrace db (getUserById c userId).1 = db ∧
     runTrace db (getTweetsByUserId c userId).1 = db ∧
     runTrace db (getHashtagsByTweetId c tweetId).1 = db ∧
     runTrace db (getFollowersByUserId c userId).1 = db ∧
     runTrace db (getLikesByTweetId c tweetId).1 = db) ∧
    ((∀ rows, c .allUsers = .ok rows → (getAllUsers c).2 = .ok rows) ∧
     (∀ rows, c (.tweetsByAuthor userId) = .ok rows →
       (getTweetsByUserId c userId).2 = .ok rows) ∧
     (∀ rows, c (.hashtagsByTweetId tweetId) = .ok rows →
       (getHashtagsByTweetId c tweetId).2 = .ok rows) ∧
     (∀ rows, c (.followersByUserId userId) = .ok rows →
       (getFollowersByUserId c userId).2 = .ok rows) ∧
     (∀ rows, c (.countLikes tweetId) = .ok rows →
       (getLikesByTweetId c tweetId).2 = .ok rows) ∧
     (∀ rows, c (.userById userId) = .ok rows →
       (getUserById c userId).2 = .ok rows.head?)) := by
  refine ⟨⟨rfl, rfl, rfl, rfl, rfl, rfl⟩, ⟨rfl, rfl, rfl, rfl, rfl, rfl⟩,
    ?_, ?_, ?_, ?_, ?_, ?_⟩
  · intro rows h; simp [getAllUsers, h]
  · intro rows h; simp [getTweetsByUserId, h]
  · intro rows h; simp [getHashtagsByTweetId, h]
  · intro rows h; simp [getFollowersByUserId, h]
  · intro rows h; simp [getLikesByTweetId, h]
  · intro rows h; simp [getUserById, h]

/-- C9 witness: trace, frame and unmodified-rows conclusions instantiated on
the seeded store's client. -/
theorem adapters_single_query_frame_witness :
    (getAllUsers (goodClient dbSeed)).1 = [.allUsers] ∧
    runTrace dbSeed (getAllUsers (goodClient dbSeed)).1 = dbSeed ∧
    (getAllUsers (goodClient dbSeed)).2 = .ok (selectAllUsers dbSeed) ∧
    (getUserById (goodClient dbSeed) 1).2 = .ok (selectUserById dbSeed 1).head? := by
  obtain ⟨⟨t1, -, -, -, -, -⟩, ⟨s1, -, -, -, -, -⟩, r1, -, -, -, -, r6⟩ :=
    adapters_single_query_frame (goodClient dbSeed) dbSeed 1 1
  exact ⟨t1, s1, r1 _ rfl, r6 _ rfl⟩

end TwitterClone
